import Mathlib

/-!
Verification development for the account service of the
`nestjs-graphql-fastity` repository (`src/users/users.service.ts`).

The service is embedded shallowly: the database is a list of user entities
plus a next-id counter, each service method becomes a function from the
database state to `Except ServiceError` of its result (and the updated
state for mutations), mirroring the synchronous read-validate-write
structure of the TypeScript code.  External collaborators (bcrypt, the
cache manager) and repository files absent from the source snapshot
(`CommonService`, the `CredentialsEmbeddable`, the entity defaults) are
modelled from the spec, as marked in their doc comments.
-/

namespace NestUsers

/-- Error taxonomy of the service, mirroring the NestJS exceptions raised in
`users.service.ts`: `BadRequestException`, `UnauthorizedException`,
`ConflictException` and the not-found error of `checkEntityExistence`. -/
inductive ServiceError where
  | badRequest (message : String)
  | unauthorized (message : String)
  | conflict (message : String)
  | notFound (message : String)
deriving DecidableEq, Repr

/-- Modelled from the spec: `OAuthProvidersEnum` (enum file missing from src);
the set of linked OAuth provider tags, with `local` for password accounts. -/
inductive OAuthProvidersEnum where
  | local
  | microsoft
  | google
  | facebook
deriving DecidableEq, Repr

/-- Modelled from the spec: `OnlineStatusEnum` (enum file missing from src);
the online-status and default-status enum of a user. -/
inductive OnlineStatusEnum where
  | online
  | busy
  | idle
  | doNotDisturb
  | invisible
  | offline
deriving DecidableEq, Repr

/-- Modelled from the spec: the embedded `CredentialsEmbeddable` record
(missing from src): integer version starting at 0 and the last password
hash retained for replay comparison. -/
structure CredentialsEmbeddable where
  version : Nat := 0
  lastPassword : String := ""
deriving DecidableEq, Repr

/-- Modelled from the spec: `credentials.updateVersion()` bumps the
credentials version (used by `confirmEmail`). -/
def CredentialsEmbeddable.updateVersion
    (c : CredentialsEmbeddable) : CredentialsEmbeddable :=
  { c with version := c.version + 1 }

/-- Modelled from the spec: `credentials.updatePassword(oldHash)` archives
the old password hash into the credentials record and bumps the version
(used by `updatePassword` and `resetPassword`). -/
def CredentialsEmbeddable.updatePassword
    (c : CredentialsEmbeddable) (oldPassword : String) : CredentialsEmbeddable :=
  { version := c.version + 1, lastPassword := oldPassword }

namespace bcrypt

/-- Model of the external bcrypt library's `hash(password, 10)`: hashing is
represented as an injective tagging of the password with the bcrypt format
marker.  Real bcrypt digests always start with a `$2...$` prefix character
and therefore never coincide with the plain sentinel string `UNSET`; the
model preserves exactly that property. -/
def hash (password : String) : String := "$2b$10$" ++ password

/-- Model of the external bcrypt library's `compare(password, stored)`:
true iff `stored` is the hash of `password`. -/
def compare (password stored : String) : Bool := stored == hash password

end bcrypt

/-- The user entity of `entities/user.entity.ts` (entity file missing from
src; fields and defaults modelled from the spec's data-model section):
numeric id, lowercase-normalized unique email, derived lowercase unique
username, display name, hashed password (or the sentinel "UNSET"),
confirmation flag, online-status and default-status enums, linked OAuth
provider tags, and the embedded credentials record. -/
structure UserEntity where
  id : Nat
  email : String
  username : String
  name : String
  password : String
  confirmed : Bool := false
  onlineStatus : OnlineStatusEnum := .offline
  defaultStatus : OnlineStatusEnum := .online
  authProviders : List OAuthProvidersEnum := []
  credentials : CredentialsEmbeddable := {}
deriving DecidableEq, Repr

/-- The relational store backing the users repository: the list of stored
user rows plus the next auto-generated id. -/
structure DBState where
  users : List UserEntity := []
  nextId : Nat := 1
deriving DecidableEq, Repr

/-- `usersRepository.findOne({ id })`: first stored user with the given id. -/
def findUser (users : List UserEntity) (id : Nat) : Option UserEntity :=
  users.find? (fun u => u.id == id)

/-- `commonService.saveEntity(repo, user)` on an existing entity: the row
with the user's id is replaced by the mutated entity. -/
def saveUser (db : DBState) (u : UserEntity) : DBState :=
  { db with users := db.users.map (fun v => if v.id == u.id then u else v) }

/-- `commonService.saveEntity(repo, user, true)` on a new entity: the row is
inserted and the id counter advances. -/
def insertUser (db : DBState) (u : UserEntity) : DBState :=
  { users := db.users ++ [u], nextId := db.nextId + 1 }

/-- `commonService.removeEntity(repo, user)`: the row with the user's id is
removed. -/
def removeUser (db : DBState) (u : UserEntity) : DBState :=
  { db with users := db.users.filter (fun v => v.id != u.id) }

/-- Modelled from the spec: lowercase normalization of emails and usernames
(JavaScript `String.prototype.toLowerCase`). -/
def toLowerStr (s : String) : String := ⟨s.data.map Char.toLower⟩

/-- Modelled from the spec: one character of the point slug: spaces become
dashes (the spec's example maps "John Doe" to "john-doe"), everything else
is lowercased. -/
def slugChar (c : Char) : Char := if c = ' ' then '-' else c.toLower

/-- Modelled from the spec: `CommonService.generatePointSlug` (missing from
src), the lowercase dash-normalized derivation of a display name used as a
username base. -/
def generatePointSlug (name : String) : String := ⟨name.data.map slugChar⟩

/-- Character-list worker for `formatTitle`: capitalize the first letter of
each space-separated word, lowercase the rest. -/
def formatTitleAux : Bool → List Char → List Char
  | _, [] => []
  | atStart, c :: cs =>
    if c = ' ' then c :: formatTitleAux true cs
    else (if atStart then c.toUpper else c.toLower) :: formatTitleAux false cs

/-- Modelled from the spec: `CommonService.formatTitle` (missing from src)
formats a display name in title case, so that names like "John Doe" are
kept as "John Doe". -/
def formatTitle (name : String) : String := ⟨formatTitleAux true name.data⟩

/-- The SQL `$like 'slug%'` filter used by `generateUsername`: the username
starts with the point slug. -/
def likeSlug (slug username : String) : Bool :=
  slug.data.isPrefixOf username.data

/-- `usersRepository.count({ username: { $like: slug% } })`: number of
stored usernames sharing the slug as a prefix. -/
def countByUsernameLike (users : List UserEntity) (slug : String) : Nat :=
  (users.filter (fun u => likeSlug slug u.username)).length

/-- `usersRepository.count({ email })`: number of stored rows with the given
(already normalized) email. -/
def countByEmail (users : List UserEntity) (email : String) : Nat :=
  (users.filter (fun u => u.email == email)).length

/-- `checkEmailUniqueness`: conflict error when the email is already
present. -/
def checkEmailUniqueness (db : DBState) (email : String) :
    Except ServiceError Unit :=
  if countByEmail db.users email > 0 then
    .error (.conflict "Email already in use")
  else
    .ok ()

/-- `generateUsername`: the point slug of the name, with the count of
usernames sharing the slug as a prefix appended when that count is
positive. -/
def generateUsername (db : DBState) (name : String) : String :=
  let pointSlug := generatePointSlug name
  let count := countByUsernameLike db.users pointSlug
  if count > 0 then pointSlug ++ Nat.repr count else pointSlug

/-- `create(email, name, provider, password?)`: lowercases the email, checks
uniqueness, formats the name, derives the username, hashes the password (or
stores the sentinel "UNSET"), and inserts the new row. -/
def create (db : DBState) (email name : String) (provider : OAuthProvidersEnum)
    (password : Option String) : Except ServiceError (UserEntity × DBState) :=
  let formattedEmail := toLowerStr email
  match checkEmailUniqueness db formattedEmail with
  | .error e => .error e
  | .ok _ =>
    let formattedName := formatTitle name
    let user : UserEntity :=
      { id := db.nextId
        email := formattedEmail
        name := formattedName
        username := generateUsername db formattedName
        authProviders := [provider]
        password := match password with
          | none => "UNSET"
          | some p => bcrypt.hash p }
    .ok (user, insertUser db user)

/-- `findOneById(id)`: not-found error when no row has the id
(`checkEntityExistence`). -/
def findOneById (db : DBState) (id : Nat) : Except ServiceError UserEntity :=
  match findUser db.users id with
  | none => .error (.notFound "User not found")
  | some u => .ok u

/-- `findOneByCredentials(id, version)`: unauthorized when the user is
missing (`throwUnauthorizedException`) or when the stored credentials
version differs from the supplied one. -/
def findOneByCredentials (db : DBState) (id version : Nat) :
    Except ServiceError UserEntity :=
  match findUser db.users id with
  | none => .error (.unauthorized "Invalid credentials")
  | some u =>
    if u.credentials.version != version then
      .error (.unauthorized "Invalid credentials")
    else
      .ok u

/-- `confirmEmail(userId, version)`: validates via `findOneByCredentials`,
rejects already-confirmed accounts, else sets `confirmed` and bumps the
credentials version. -/
def confirmEmail (db : DBState) (userId version : Nat) :
    Except ServiceError (UserEntity × DBState) :=
  match findOneByCredentials db userId version with
  | .error e => .error e
  | .ok user =>
    if user.confirmed then
      .error (.badRequest "Email already confirmed")
    else
      let user := { user with
        confirmed := true
        credentials := user.credentials.updateVersion }
      .ok (user, saveUser db user)

/-- `updatePassword(userId, password, newPassword)`: rejects a wrong current
password and an unchanged new password, else archives the old hash, stores
the new hash and saves. -/
def updatePassword (db : DBState) (userId : Nat) (password newPassword : String) :
    Except ServiceError (UserEntity × DBState) :=
  match findOneById db userId with
  | .error e => .error e
  | .ok user =>
    if !(bcrypt.compare password user.password) then
      .error (.badRequest "Wrong password")
    else if bcrypt.compare newPassword user.password then
      .error (.badRequest "New password must be different")
    else
      let user := { user with
        credentials := user.credentials.updatePassword user.password
        password := bcrypt.hash newPassword }
      .ok (user, saveUser db user)

/-- `resetPassword(userId, version, password)`: gated by the credentials
version instead of the live password; archives the old hash, stores the new
hash and saves, with no requirement that the new password differ. -/
def resetPassword (db : DBState) (userId version : Nat) (password : String) :
    Except ServiceError (UserEntity × DBState) :=
  match findOneByCredentials db userId version with
  | .error e => .error e
  | .ok user =>
    let user := { user with
      credentials := user.credentials.updatePassword user.password
      password := bcrypt.hash password }
    .ok (user, saveUser db user)

/-- The `UpdateEmailDto` payload of `updateEmail` (dto file missing from
src; fields read by the service): the new email and the current password. -/
structure UpdateEmailDto where
  email : String
  password : String
deriving DecidableEq, Repr

/-- `updateEmail(userId, dto)`: requires the correct current password, then
rejects an unchanged (lowercased) email, then checks uniqueness, then
stores the lowercased email. -/
def updateEmail (db : DBState) (userId : Nat) (dto : UpdateEmailDto) :
    Except ServiceError (UserEntity × DBState) :=
  match findOneById db userId with
  | .error e => .error e
  | .ok user =>
    if !(bcrypt.compare dto.password user.password) then
      .error (.badRequest "Wrong password")
    else
      let formattedEmail := toLowerStr dto.email
      if user.email == formattedEmail then
        .error (.badRequest "Email should be different")
      else
        match checkEmailUniqueness db formattedEmail with
        | .error e => .error e
        | .ok _ =>
          let user := { user with email := formattedEmail }
          .ok (user, saveUser db user)

/-- `delete(userId, password)`: password-gated hard delete. -/
def delete (db : DBState) (userId : Nat) (password : String) :
    Except ServiceError (UserEntity × DBState) :=
  match findOneById db userId with
  | .error e => .error e
  | .ok user =>
    if !(bcrypt.compare password user.password) then
      .error (.badRequest "Wrong password")
    else
      .ok (user, removeUser db user)

/-- `updateName(userId, name)`: formats the name, stores it, and replaces
the username with a freshly generated one derived from the new name. -/
def updateName (db : DBState) (userId : Nat) (name : String) :
    Except ServiceError (UserEntity × DBState) :=
  let formatName := formatTitle name
  match findOneById db userId with
  | .error e => .error e
  | .ok user =>
    let user := { user with
      name := formatName
      username := generateUsername db formatName }
    .ok (user, saveUser db user)

/-- Modelled from the spec: the session data stored by the auth layer under
`sessions:<id>` (interface file missing from src); its contents are
irrelevant to the users service, which only checks presence. -/
structure ISessionsData where
  sessionCount : Nat := 1
deriving DecidableEq, Repr

/-- The cache collaborator: a generic key-value store, as seen through
`cacheManager.get`. -/
abbrev Cache : Type := List (String × ISessionsData)

/-- `cacheManager.get(key)`: the value stored under the key, if any. -/
def cacheGet (cache : Cache) (key : String) : Option ISessionsData :=
  (cache.find? (fun p => p.1 == key)).map Prod.snd

/-- `updateOnlineStatus(userId, onlineStatus)`: always stores the status in
`defaultStatus`; copies it into `onlineStatus` only when a session cache
entry exists under `sessions:<id>`. -/
def updateOnlineStatus (db : DBState) (cache : Cache) (userId : Nat)
    (onlineStatus : OnlineStatusEnum) :
    Except ServiceError (UserEntity × DBState) :=
  match findOneById db userId with
  | .error e => .error e
  | .ok user =>
    let user := { user with defaultStatus := onlineStatus }
    let user := match cacheGet cache ("sessions:" ++ Nat.repr userId) with
      | some _ => { user with onlineStatus := onlineStatus }
      | none => user
    .ok (user, saveUser db user)

/-! ### Basic lemmas about the bcrypt model and the store -/

/-- A bcrypt digest never coincides with the sentinel "UNSET": digests start
with the format marker character. -/
theorem bcrypt.hash_ne_UNSET (pw : String) : bcrypt.hash pw ≠ "UNSET" := by
  intro h
  have hd : (bcrypt.hash pw).data = "UNSET".data := congrArg String.data h
  rw [bcrypt.hash, String.data_append] at hd
  have h7 : ("$2b$10$" : String).data = ['$', '2', 'b', '$', '1', '0', '$'] := rfl
  have h5 : ("UNSET" : String).data = ['U', 'N', 'S', 'E', 'T'] := rfl
  rw [h7, h5] at hd
  simp at hd

/-- Comparing any password against the sentinel "UNSET" fails. -/
theorem bcrypt.compare_UNSET (pw : String) : bcrypt.compare pw "UNSET" = false := by
  rw [bcrypt.compare, beq_eq_false_iff_ne]
  exact fun h => bcrypt.hash_ne_UNSET pw h.symm

/-- Replacing the row of a found user by id makes a later lookup return the
replacement. -/
theorem findUser_replace (users : List UserEntity) (id : Nat) (u u' : UserEntity)
    (hu : findUser users id = some u) (hid : u'.id = u.id) :
    findUser (users.map (fun v => if v.id == u'.id then u' else v)) id = some u' := by
  have huid : u.id = id := by simpa using List.find?_some hu
  induction users with
  | nil => simp [findUser] at hu
  | cons a l ih =>
    by_cases ha : a.id = id
    · have hau : a = u := by
        rw [findUser] at hu
        rw [List.find?_cons_of_pos _ (by simp [ha])] at hu
        exact Option.some.inj hu
      have hcond : (a.id == u'.id) = true := by simp [hid, ← hau]
      rw [List.map_cons, findUser]
      simp only [hcond, if_true]
      rw [List.find?_cons_of_pos _ (by simp [hid, huid])]
    · have h1 : findUser l id = some u := by
        rw [findUser] at hu
        rw [List.find?_cons_of_neg _ (by simp [ha])] at hu
        exact hu
      have hcond : (a.id == u'.id) = false := by
        rw [hid, huid]
        simp [ha]
      rw [List.map_cons, findUser]
      simp only [hcond, Bool.false_eq_true, if_false]
      rw [List.find?_cons_of_neg _ (by simp [ha])]
      exact ih h1

/-- `saveUser` specialization of `findUser_replace`. -/
theorem findUser_saveUser (db : DBState) (id : Nat) (u u' : UserEntity)
    (hu : findUser db.users id = some u) (hid : u'.id = u.id) :
    findUser (saveUser db u').users id = some u' :=
  findUser_replace db.users id u u' hu hid

/-! ### Concrete fixtures used by the witnesses -/

/-- Fixture: a single stored local-provider user with a known password. -/
def aliceUser : UserEntity :=
  { id := 1
    email := "alice@mail.com"
    username := "alice"
    name := "Alice"
    password := bcrypt.hash "oldsecret"
    authProviders := [.local] }

/-- Fixture store holding just `aliceUser`. -/
def aliceDb : DBState := { users := [aliceUser], nextId := 2 }

/-! ### Claim theorems -/

/-- C1: for every stored user with credentials version `cv` and every
supplied version `v`, `findOneByCredentials(id, v)` returns the user iff
`v = cv`; if `v ≠ cv`, or no user with that id exists, it fails with an
unauthorized error ("Invalid credentials"). -/
theorem findOneByCredentials_version_iff (db : DBState) (id version : Nat) :
    (∀ u, findUser db.users id = some u →
      ((findOneByCredentials db id version = .ok u ↔
          version = u.credentials.version) ∧
        (version ≠ u.credentials.version →
          findOneByCredentials db id version =
            .error (.unauthorized "Invalid credentials")))) ∧
    (findUser db.users id = none →
      findOneByCredentials db id version =
        .error (.unauthorized "Invalid credentials")) := by
  constructor
  · intro u hu
    by_cases hv : u.credentials.version = version
    · constructor
      · simp [findOneByCredentials, hu, hv]
      · intro hne
        exact absurd hv.symm hne
    · constructor
      · simp [findOneByCredentials, hu, hv]
        exact fun h => absurd h.symm hv
      · intro _
        simp [findOneByCredentials, hu, hv]
  · intro hn
    simp [findOneByCredentials, hn]

/-- Witness for C1 at a concrete store: matching version returns the user,
a stale version and a missing id are both unauthorized. -/
theorem findOneByCredentials_version_iff_witness :
    findOneByCredentials aliceDb 1 0 = .ok aliceUser ∧
    findOneByCredentials aliceDb 1 5 =
      .error (.unauthorized "Invalid credentials") ∧
    findOneByCredentials aliceDb 7 0 =
      .error (.unauthorized "Invalid credentials") := by
  refine ⟨?_, ?_, ?_⟩
  · exact ((findOneByCredentials_version_iff aliceDb 1 0).1 aliceUser
      (by decide)).1.mpr (by decide)
  · exact ((findOneByCredentials_version_iff aliceDb 1 5).1 aliceUser
      (by decide)).2 (by decide)
  · exact (findOneByCredentials_version_iff aliceDb 7 0).2 (by decide)

/-- C2: for every existing user, `updatePassword(id, old, new)` fails with
bad-request "Wrong password" when `old` does not match the stored hash,
fails with bad-request "New password must be different" when `new` matches
the stored hash, and otherwise succeeds, archiving the old hash into the
credentials, bumping the version by exactly 1, and storing the hash of
`new`. -/
theorem updatePassword_spec (db : DBState) (userId : Nat)
    (password newPassword : String) (u : UserEntity)
    (hu : findUser db.users userId = some u) :
    (bcrypt.compare password u.password = false →
      updatePassword db userId password newPassword =
        .error (.badRequest "Wrong password")) ∧
    (bcrypt.compare password u.password = true →
      bcrypt.compare newPassword u.password = true →
      updatePassword db userId password newPassword =
        .error (.badRequest "New password must be different")) ∧
    (bcrypt.compare password u.password = true →
      bcrypt.compare newPassword u.password = false →
      updatePassword db userId password newPassword =
        .ok ({ u with
                credentials := { version := u.credentials.version + 1
                                 lastPassword := u.password }
                password := bcrypt.hash newPassword },
             saveUser db { u with
                credentials := { version := u.credentials.version + 1
                                 lastPassword := u.password }
                password := bcrypt.hash newPassword })) := by
  refine ⟨fun h1 => ?_, fun h1 h2 => ?_, fun h1 h2 => ?_⟩
  · simp [updatePassword, findOneById, hu, h1]
  · simp [updatePassword, findOneById, hu, h1, h2]
  · simp [updatePassword, findOneById, hu, h1, h2,
      CredentialsEmbeddable.updatePassword]

/-- Fixture: `aliceUser` after a successful password update to
"newsecret". -/
def aliceNewPw : UserEntity :=
  { aliceUser with
    credentials := { version := 1, lastPassword := aliceUser.password }
    password := bcrypt.hash "newsecret" }

/-- Witness for C2 at a concrete store: wrong password and repeated
password both fail, and a fresh password succeeds with the version bumped
to 1. -/
theorem updatePassword_spec_witness :
    updatePassword aliceDb 1 "bad" "x" = .error (.badRequest "Wrong password") ∧
    updatePassword aliceDb 1 "oldsecret" "oldsecret" =
      .error (.badRequest "New password must be different") ∧
    updatePassword aliceDb 1 "oldsecret" "newsecret" =
      .ok (aliceNewPw, saveUser aliceDb aliceNewPw) := by
  refine ⟨?_, ?_, ?_⟩
  · exact (updatePassword_spec aliceDb 1 "bad" "x" aliceUser (by decide)).1
      (by decide)
  · exact (updatePassword_spec aliceDb 1 "oldsecret" "oldsecret" aliceUser
      (by decide)).2.1 (by decide) (by decide)
  · exact (updatePassword_spec aliceDb 1 "oldsecret" "newsecret" aliceUser
      (by decide)).2.2 (by decide) (by decide)

/-- C4: `create` lowercases the email before storing it and before the
uniqueness check; a second `create` whose email normalizes to the same
lowercase string fails with conflict "Email already in use" while the
first user remains stored. -/
theorem create_conflict_on_same_email (db : DBState) (e1 n1 : String)
    (p1 : OAuthProvidersEnum) (pw1 : Option String) (u : UserEntity)
    (db' : DBState) (h : create db e1 n1 p1 pw1 = .ok (u, db'))
    (e2 n2 : String) (p2 : OAuthProvidersEnum) (pw2 : Option String)
    (he : toLowerStr e2 = toLowerStr e1) :
    u.email = toLowerStr e1 ∧
    u ∈ db'.users ∧
    create db' e2 n2 p2 pw2 = .error (.conflict "Email already in use") := by
  by_cases hc : 0 < countByEmail db.users (toLowerStr e1)
  · simp [create, checkEmailUniqueness, hc] at h
  · simp [create, checkEmailUniqueness, hc] at h
    obtain ⟨hu, hdb⟩ := h
    subst hu
    subst hdb
    refine ⟨rfl, by simp [insertUser], ?_⟩
    simp [create, checkEmailUniqueness, countByEmail, insertUser, he,
      List.filter_append]

/-- Fixture: the user produced by creating "Casey@Mail.com" without a
password in the empty store. -/
def caseyUser : UserEntity :=
  { id := 1
    email := "casey@mail.com"
    username := "casey"
    name := "Casey"
    password := "UNSET"
    authProviders := [.local] }

/-- Fixture store after the first `create` of `caseyUser`. -/
def caseyDb : DBState := { users := [caseyUser], nextId := 2 }

/-- Witness for C4 at a concrete store: re-creating the same email in a
different case fails with conflict. -/
theorem create_conflict_on_same_email_witness :
    create caseyDb "CASEY@mail.com" "Other" .google none =
      .error (.conflict "Email already in use") :=
  (create_conflict_on_same_email {} "Casey@Mail.com" "Casey" .local none
    caseyUser caseyDb (by rfl) "CASEY@mail.com" "Other" .google none
    (by decide)).2.2

/-- C5: `confirmEmail` is not idempotent: a successful call sets the
confirmed flag and bumps the credentials version, and a second call on the
resulting store (with the bumped version) fails with bad-request
"Email already confirmed". -/
theorem confirmEmail_not_idempotent (db : DBState) (userId version : Nat)
    (u' : UserEntity) (db' : DBState)
    (h : confirmEmail db userId version = .ok (u', db')) :
    u'.confirmed = true ∧
    u'.credentials.version = version + 1 ∧
    confirmEmail db' userId u'.credentials.version =
      .error (.badRequest "Email already confirmed") := by
  cases hf : findUser db.users userId with
  | none => simp [confirmEmail, findOneByCredentials, hf] at h
  | some u =>
    by_cases hv : u.credentials.version = version
    · by_cases hcf : u.confirmed
      · simp [confirmEmail, findOneByCredentials, hf, hv, hcf] at h
      · simp [confirmEmail, findOneByCredentials, hf, hv, hcf] at h
        obtain ⟨hu', hdb'⟩ := h
        subst hu'
        subst hdb'
        refine ⟨rfl, by simp [CredentialsEmbeddable.updateVersion, hv], ?_⟩
        have hfind := findUser_saveUser db userId u
          { u with confirmed := true
                   credentials := u.credentials.updateVersion } hf rfl
        simp [confirmEmail, findOneByCredentials, hfind]
    · simp [confirmEmail, findOneByCredentials, hf, hv] at h

/-- Fixture: `aliceUser` after a successful email confirmation. -/
def aliceConfirmed : UserEntity :=
  { aliceUser with
    confirmed := true
    credentials := { version := 1, lastPassword := "" } }

/-- Witness for C5 at a concrete store: the second confirmation fails with
bad-request. -/
theorem confirmEmail_not_idempotent_witness :
    confirmEmail (saveUser aliceDb aliceConfirmed) 1 1 =
      .error (.badRequest "Email already confirmed") :=
  (confirmEmail_not_idempotent aliceDb 1 0 aliceConfirmed
    (saveUser aliceDb aliceConfirmed) (by rfl)).2.2

/-- C6: for every existing user, `updateEmail` fails with bad-request
"Wrong password" when the password does not match the stored hash;
otherwise fails with bad-request "Email should be different" when the
lowercased new email equals the current one; otherwise fails with conflict
"Email already in use" when the new email is already stored; otherwise
stores the lowercased new email (checks applied in that order). -/
theorem updateEmail_spec (db : DBState) (userId : Nat) (dto : UpdateEmailDto)
    (u : UserEntity) (hu : findUser db.users userId = some u) :
    (bcrypt.compare dto.password u.password = false →
      updateEmail db userId dto = .error (.badRequest "Wrong password")) ∧
    (bcrypt.compare dto.password u.password = true →
      u.email = toLowerStr dto.email →
      updateEmail db userId dto =
        .error (.badRequest "Email should be different")) ∧
    (bcrypt.compare dto.password u.password = true →
      u.email ≠ toLowerStr dto.email →
      0 < countByEmail db.users (toLowerStr dto.email) →
      updateEmail db userId dto = .error (.conflict "Email already in use")) ∧
    (bcrypt.compare dto.password u.password = true →
      u.email ≠ toLowerStr dto.email →
      countByEmail db.users (toLowerStr dto.email) = 0 →
      updateEmail db userId dto =
        .ok ({ u with email := toLowerStr dto.email },
             saveUser db { u with email := toLowerStr dto.email })) := by
  refine ⟨fun h1 => ?_, fun h1 h2 => ?_, fun h1 h2 h3 => ?_, fun h1 h2 h3 => ?_⟩
  · simp [updateEmail, findOneById, hu, h1]
  · simp [updateEmail, findOneById, hu, h1, h2]
  · simp [updateEmail, findOneById, hu, h1, h2, checkEmailUniqueness, h3]
  · simp [updateEmail, findOneById, hu, h1, h2, checkEmailUniqueness, h3]

/-- Fixture: a second stored user, for email-conflict scenarios. -/
def bertUser : UserEntity :=
  { id := 2
    email := "bert@mail.com"
    username := "bert"
    name := "Bert"
    password := bcrypt.hash "bertpw"
    authProviders := [.local] }

/-- Fixture store holding `aliceUser` and `bertUser`. -/
def twoUserDb : DBState := { users := [aliceUser, bertUser], nextId := 3 }

/-- Witness for C6 at a concrete store: each of the four outcomes is
reached. -/
theorem updateEmail_spec_witness :
    updateEmail twoUserDb 1 ⟨"new@mail.com", "bad"⟩ =
      .error (.badRequest "Wrong password") ∧
    updateEmail twoUserDb 1 ⟨"Alice@Mail.com", "oldsecret"⟩ =
      .error (.badRequest "Email should be different") ∧
    updateEmail twoUserDb 1 ⟨"Bert@Mail.com", "oldsecret"⟩ =
      .error (.conflict "Email already in use") ∧
    updateEmail twoUserDb 1 ⟨"New@Mail.com", "oldsecret"⟩ =
      .ok ({ aliceUser with email := "new@mail.com" },
           saveUser twoUserDb { aliceUser with email := "new@mail.com" }) := by
  refine ⟨?_, ?_, ?_, ?_⟩
  · exact (updateEmail_spec twoUserDb 1 ⟨"new@mail.com", "bad"⟩ aliceUser
      (by decide)).1 (by decide)
  · exact (updateEmail_spec twoUserDb 1 ⟨"Alice@Mail.com", "oldsecret"⟩ aliceUser
      (by decide)).2.1 (by decide) (by decide)
  · exact (updateEmail_spec twoUserDb 1 ⟨"Bert@Mail.com", "oldsecret"⟩ aliceUser
      (by decide)).2.2.1 (by decide) (by decide) (by decide)
  · exact (updateEmail_spec twoUserDb 1 ⟨"New@Mail.com", "oldsecret"⟩ aliceUser
      (by decide)).2.2.2 (by decide) (by decide) (by decide)

/-- C7: `updateOnlineStatus` always persists the requested status into the
default-status field, and copies it into the online-status field only when
a session cache entry exists under `sessions:<id>`; with no session entry
the online-status field is left unchanged. -/
theorem updateOnlineStatus_spec (db : DBState) (cache : Cache) (userId : Nat)
    (status : OnlineStatusEnum) (u : UserEntity)
    (hu : findUser db.users userId = some u) :
    (cacheGet cache ("sessions:" ++ Nat.repr userId) = none →
      updateOnlineStatus db cache userId status =
        .ok ({ u with defaultStatus := status },
             saveUser db { u with defaultStatus := status })) ∧
    (∀ d, cacheGet cache ("sessions:" ++ Nat.repr userId) = some d →
      updateOnlineStatus db cache userId status =
        .ok ({ u with defaultStatus := status, onlineStatus := status },
             saveUser db
               { u with defaultStatus := status, onlineStatus := status })) := by
  constructor
  · intro hc
    simp [updateOnlineStatus, findOneById, hu, hc]
  · intro d hc
    simp [updateOnlineStatus, findOneById, hu, hc]

/-- Witness for C7 at a concrete store: without a session entry only the
default status changes; with a `sessions:1` entry both fields change. -/
theorem updateOnlineStatus_spec_witness :
    updateOnlineStatus aliceDb [] 1 .busy =
      .ok ({ aliceUser with defaultStatus := .busy },
           saveUser aliceDb { aliceUser with defaultStatus := .busy }) ∧
    updateOnlineStatus aliceDb [("sessions:1", {})] 1 .busy =
      .ok ({ aliceUser with defaultStatus := .busy, onlineStatus := .busy },
           saveUser aliceDb
             { aliceUser with defaultStatus := .busy, onlineStatus := .busy }) := by
  constructor
  · exact (updateOnlineStatus_spec aliceDb [] 1 .busy aliceUser (by decide)).1
      (by rfl)
  · exact (updateOnlineStatus_spec aliceDb [("sessions:1", {})] 1 .busy
      aliceUser (by decide)).2 {} (by rfl)

/-- C8: for a user stored with the sentinel password "UNSET" (an account
created without a password), every password-gated operation —
`updatePassword`, `updateEmail`, and `delete` — fails with bad-request
"Wrong password" for every supplied password, because a bcrypt comparison
against the sentinel never succeeds. -/
theorem unset_password_locks (db : DBState) (userId : Nat) (u : UserEntity)
    (hu : findUser db.users userId = some u) (hp : u.password = "UNSET") :
    ∀ pw npw newEmail : String,
      updatePassword db userId pw npw =
        .error (.badRequest "Wrong password") ∧
      updateEmail db userId ⟨newEmail, pw⟩ =
        .error (.badRequest "Wrong password") ∧
      delete db userId pw = .error (.badRequest "Wrong password") := by
  intro pw npw newEmail
  have hc : bcrypt.compare pw u.password = false := by
    rw [hp]
    exact bcrypt.compare_UNSET pw
  refine ⟨?_, ?_, ?_⟩
  · simp [updatePassword, findOneById, hu, hc]
  · simp [updateEmail, findOneById, hu, hc]
  · simp [delete, findOneById, hu, hc]

/-- Witness for C8 at a concrete store: `caseyUser` was created without a
password, and the three operations reject an arbitrary guess. -/
theorem unset_password_locks_witness :
    updatePassword caseyDb 1 "guess" "next" =
      .error (.badRequest "Wrong password") ∧
    updateEmail caseyDb 1 ⟨"other@mail.com", "guess"⟩ =
      .error (.badRequest "Wrong password") ∧
    delete caseyDb 1 "guess" = .error (.badRequest "Wrong password") :=
  unset_password_locks caseyDb 1 caseyUser (by decide) (by decide)
    "guess" "next" "other@mail.com"

/-- C9: `resetPassword`, unlike `updatePassword`, imposes no requirement
that the new password differ from the current one: with a matching
credentials version it succeeds for every new password, archiving the old
hash and bumping the version by 1, while `updatePassword` rejects the same
unchanged password. -/
theorem resetPassword_no_difference_check (db : DBState) (userId : Nat)
    (u : UserEntity) (hu : findUser db.users userId = some u)
    (password : String) :
    resetPassword db userId u.credentials.version password =
      .ok ({ u with
              credentials := { version := u.credentials.version + 1
                               lastPassword := u.password }
              password := bcrypt.hash password },
           saveUser db { u with
              credentials := { version := u.credentials.version + 1
                               lastPassword := u.password }
              password := bcrypt.hash password }) ∧
    (bcrypt.compare password u.password = true →
      updatePassword db userId password password =
        .error (.badRequest "New password must be different")) := by
  constructor
  · simp [resetPassword, findOneByCredentials, hu,
      CredentialsEmbeddable.updatePassword]
  · intro hcp
    simp [updatePassword, findOneById, hu, hcp]

/-- Fixture: `aliceUser` after a reset to her current password. -/
def aliceReset : UserEntity :=
  { aliceUser with
    credentials := { version := 1, lastPassword := aliceUser.password }
    password := bcrypt.hash "oldsecret" }

/-- Witness for C9 at a concrete store: resetting to the unchanged password
succeeds with the version bumped, while `updatePassword` rejects it. -/
theorem resetPassword_no_difference_check_witness :
    resetPassword aliceDb 1 0 "oldsecret" =
      .ok (aliceReset, saveUser aliceDb aliceReset) ∧
    updatePassword aliceDb 1 "oldsecret" "oldsecret" =
      .error (.badRequest "New password must be different") :=
  ⟨(resetPassword_no_difference_check aliceDb 1 aliceUser (by decide)
      "oldsecret").1,
   (resetPassword_no_difference_check aliceDb 1 aliceUser (by decide)
      "oldsecret").2 (by decide)⟩

/-- C10: `updateName` modifies exactly the display name (set to the
formatted name) and the username (regenerated from the new name via the
slug-plus-count derivation over the current store); every other field,
including the credentials version, is unchanged. -/
theorem updateName_frame (db : DBState) (userId : Nat) (name : String)
    (u : UserEntity) (hu : findUser db.users userId = some u) :
    updateName db userId name =
      .ok ({ u with
              name := formatTitle name
              username := generateUsername db (formatTitle name) },
           saveUser db { u with
              name := formatTitle name
              username := generateUsername db (formatTitle name) }) ∧
    ∀ u' : UserEntity,
      u' = { u with
              name := formatTitle name
              username := generateUsername db (formatTitle name) } →
      u'.id = u.id ∧ u'.email = u.email ∧ u'.password = u.password ∧
      u'.confirmed = u.confirmed ∧ u'.onlineStatus = u.onlineStatus ∧
      u'.defaultStatus = u.defaultStatus ∧
      u'.authProviders = u.authProviders ∧
      u'.credentials = u.credentials := by
  constructor
  · simp [updateName, findOneById, hu]
  · intro u' h
    subst h
    exact ⟨rfl, rfl, rfl, rfl, rfl, rfl, rfl, rfl⟩

/-- Fixture: `aliceUser` after a rename to "alice MARIE". -/
def aliceRenamed : UserEntity :=
  { aliceUser with name := "Alice Marie", username := "alice-marie" }

/-- Witness for C10 at a concrete store: the rename changes only the name
and username, and the credentials record is untouched. -/
theorem updateName_frame_witness :
    updateName aliceDb 1 "alice MARIE" =
      .ok (aliceRenamed, saveUser aliceDb aliceRenamed) ∧
    aliceRenamed.credentials = aliceUser.credentials := by
  constructor
  · exact (updateName_frame aliceDb 1 "alice MARIE" aliceUser (by decide)).1
  · rfl

/-- The username assigned by a `create` call, used to state concrete
username scenarios. -/
def createdUsername (r : Except ServiceError (UserEntity × DBState)) :
    Option String :=
  match r with
  | .ok (u, _) => some u.username
  | .error _ => none

/-- Fixture: the user produced by creating "Johnny" in the empty store. -/
def johnnyUser : UserEntity :=
  { id := 1
    email := "a@mail.com"
    username := "johnny"
    name := "Johnny"
    password := "UNSET"
    authProviders := [.local] }

/-- Fixture store holding just `johnnyUser`. -/
def johnnyDb : DBState := { users := [johnnyUser], nextId := 2 }

/-- C3 counterexample: in the store produced by creating "Johnny" (whose
name does not slugify to "john"), creating "John" — the first user whose
name slugifies to "john" — receives the username "john1" instead of
"john", because the stored username "johnny" also shares "john" as a
prefix. -/
theorem generateUsername_nth_counterexample :
    create {} "a@mail.com" "Johnny" .local none = .ok (johnnyUser, johnnyDb) ∧
    generatePointSlug johnnyUser.name ≠ "john" ∧
    generatePointSlug (formatTitle "John") = "john" ∧
    createdUsername (create johnnyDb "b@mail.com" "John" .local none) =
      some "john1" := by
  refine ⟨rfl, by decide, rfl, rfl⟩

/-- Every generated username has the generating point slug as a prefix. -/
theorem likeSlug_generateUsername (db : DBState) (name : String) :
    likeSlug (generatePointSlug name) (generateUsername db name) = true := by
  simp only [generateUsername]
  by_cases h : countByUsernameLike db.users (generatePointSlug name) > 0
  · rw [if_pos h, likeSlug, String.data_append]
    exact List.isPrefixOf_iff_prefix.mpr (List.prefix_append _ _)
  · rw [if_neg h, likeSlug]
    exact List.isPrefixOf_iff_prefix.mpr (List.prefix_refl _)

/-- C3 amended: the derived username is the point slug when no stored
username has the slug as a prefix, and otherwise the slug with the count
of stored usernames sharing the slug as a prefix appended; each assigned
username itself has the slug as a prefix, so storing it increases that
count by exactly one — hence the Nth same-slug user receives slug(N-1)
only when the earlier same-slug users are the only stored usernames
sharing the prefix. -/
theorem generateUsername_count_spec (db : DBState) (name : String) :
    (countByUsernameLike db.users (generatePointSlug name) = 0 →
      generateUsername db name = generatePointSlug name) ∧
    (∀ n, countByUsernameLike db.users (generatePointSlug name) = n → 0 < n →
      generateUsername db name = generatePointSlug name ++ Nat.repr n) ∧
    likeSlug (generatePointSlug name) (generateUsername db name) = true ∧
    (∀ u : UserEntity, u.username = generateUsername db name →
      countByUsernameLike (db.users ++ [u]) (generatePointSlug name) =
        countByUsernameLike db.users (generatePointSlug name) + 1) := by
  refine ⟨fun h => ?_, fun n hn h0 => ?_, likeSlug_generateUsername db name,
    fun u hu => ?_⟩
  · simp [generateUsername, h]
  · simp [generateUsername, hn, h0]
  · have hp : likeSlug (generatePointSlug name) u.username = true := by
      rw [hu]
      exact likeSlug_generateUsername db name
    rw [countByUsernameLike, List.filter_append, List.length_append,
      countByUsernameLike]
    congr 1
    simp [hp]

/-- Fixture store already holding the usernames "john-doe" and
"john-doe1". -/
def johnDoeDb2 : DBState :=
  { users :=
      [{ id := 1
         email := "a@mail.com"
         username := "john-doe"
         name := "John Doe"
         password := "UNSET"
         authProviders := [.local] },
       { id := 2
         email := "b@mail.com"
         username := "john-doe1"
         name := "John Doe"
         password := "UNSET"
         authProviders := [.local] }]
    nextId := 3 }

/-- Witness for the amended C3 at concrete stores: the first "John Doe"
gets "john-doe" and, with "john-doe" and "john-doe1" stored, the third
gets "john-doe2". -/
theorem generateUsername_count_spec_witness :
    generateUsername {} "John Doe" = "john-doe" ∧
    generateUsername johnDoeDb2 "John Doe" = "john-doe2" := by
  constructor
  · exact (generateUsername_count_spec {} "John Doe").1 (by decide)
  · exact (generateUsername_count_spec johnDoeDb2 "John Doe").2.1 2
      (by decide) (by decide)

end NestUsers
